import Mathlib

/-!
Verification of the Lyra2 CUDA orchestration routine
(`src/Lyra2/src/cuda/Lyra2.cu`, functions `PHS` and `LYRA2`).

The development has two parts:

1. A byte-level embedding of the basil/padding builder (lines 187-233 of
   the source): the password, salt and the six basil integers are copied
   into a zeroed host staging buffer, the `0x80` start-of-padding marker
   is written right after the basil, and the last byte of the last
   reserved block is XORed with `0x01`.

2. A trace model of the `LYRA2` entry point: every allocation, release,
   zeroization and sponge-engine invocation of the routine is recorded as
   an event, and the path taken through the routine is driven by an
   environment that says which fallible operation succeeds.  CUDA error
   reporting is sticky: a failed runtime call leaves the error set until
   the next `cudaGetLastError`, which is exactly where the source polls
   it, so a failure in an unchecked call (e.g. `initState`) surfaces at
   the next explicit check.
-/

/-- Modelled from the spec: `Lyra2.h` is not part of the given sources.
Per spec section 3 the sponge rate is 8 words of 8 bytes
(`BLOCK_LEN_INT64 = 8`), so one absorb block is 64 bytes. -/
def blockLenInt64 : Nat := 8

/-- Modelled from the spec: one block in bytes (`BLOCK_LEN_BYTES`),
8 words of 8 bytes each. -/
def blockLenBytes : Nat := blockLenInt64 * 8

/-- Modelled from the spec: the column count is fixed to 64
(`N_COLS`, source doc comment on `PHS`: "nCols = 64"). -/
def nColsConst : Nat := 64

/-- Modelled from the spec: one matrix row in 64-bit words
(`ROW_LEN_INT64 = BLOCK_LEN_INT64 * N_COLS`). -/
def rowLenInt64 : Nat := blockLenInt64 * nColsConst

/-- Modelled from the spec: one matrix row in bytes
(`ROW_LEN_BYTES`), i.e. nCols x wordsPerBlock x wordSize = 4096. -/
def rowLenBytes : Nat := rowLenInt64 * 8

/-- Modelled from the spec: `sizeof(int)` on the CUDA host platforms the
source targets is 4 bytes; the basil holds six such integers. -/
def sizeofInt : Nat := 4

/-- Number of input blocks reserved for pad(pwd || salt || basil),
Lyra2.cu line 203: `((saltlen + pwdlen + 6*sizeof(int)) / BLOCK_LEN_BYTES) + 1`. -/
def nBlocksInput (pwdlen saltlen : Nat) : Nat :=
  (saltlen + pwdlen + 6 * sizeofInt) / blockLenBytes + 1

/-- Little-endian serialization of a C `int` value as four bytes, as
`memcpy(ptrMem, &v, sizeof(int))` lays it out on the little-endian hosts
the CUDA code runs on. -/
def intLE (v : Nat) : List Nat :=
  [v % 256, v / 256 % 256, v / 65536 % 256, v / 16777216 % 256]

/-- The basil: the six integer parameters serialized in the order the
source copies them (Lyra2.cu lines 215-226):
kLen, pwdlen, saltlen, timeCost, nRows, nCols. -/
def basilBytes (kLen pwdlen saltlen timeCost nRows nCols : Nat) : List Nat :=
  intLE kLen ++ intLE pwdlen ++ intLE saltlen ++ intLE timeCost ++
    intLE nRows ++ intLE nCols

/-- One `memcpy(buf + off, data, data.length)` over a byte buffer modelled
as a function from offsets to byte values. -/
def writeBytes (buf : Nat → Nat) (off : Nat) (data : List Nat) : Nat → Nat :=
  fun i => if off ≤ i ∧ i < off + data.length then data.getD (i - off) 0 else buf i

/-- The staging buffer contents after the sequence of `memcpy` calls of
Lyra2.cu lines 200-226: a zeroed `ROW_LEN_BYTES` buffer receives the
password at offset 0, the salt right after it, then the six basil
integers.  The padding markers are not applied yet. -/
def stagedBytes (pwd salt : List Nat) (kLen timeCost nRows nCols : Nat) : Nat → Nat :=
  let p := pwd.length
  let s := salt.length
  let b0 : Nat → Nat := fun _ => 0
  let b1 := writeBytes b0 0 pwd
  let b2 := writeBytes b1 p salt
  let b3 := writeBytes b2 (p + s) (intLE kLen)
  let b4 := writeBytes b3 (p + s + 4) (intLE p)
  let b5 := writeBytes b4 (p + s + 8) (intLE s)
  let b6 := writeBytes b5 (p + s + 12) (intLE timeCost)
  let b7 := writeBytes b6 (p + s + 16) (intLE nRows)
  writeBytes b7 (p + s + 20) (intLE nCols)

/-- The staging buffer after the two padding edits of Lyra2.cu lines
228-232: `*ptrMem = 0x80` at the byte right after the basil, then
`*ptrMem ^= 0x01` at offset `nBlocksInput * BLOCK_LEN_BYTES - 1`. -/
def buildPadded (pwd salt : List Nat) (kLen timeCost nRows nCols : Nat) : Nat → Nat :=
  let p := pwd.length
  let s := salt.length
  let b8 := stagedBytes pwd salt kLen timeCost nRows nCols
  let b9 := Function.update b8 (p + s + 24) 0x80
  let q := nBlocksInput p s * blockLenBytes - 1
  Function.update b9 q (Nat.xor (b9 q) 0x01)

/-- Resources acquired by `LYRA2` (Lyra2.cu lines 92-200), in acquisition
order: device memory matrix, host sponge state, device sponge state,
device row-index cell, host staging row. -/
inductive Res where
  | matrixDev
  | stateHost
  | stateDev
  | rowADev
  | matrixHost
deriving DecidableEq, BEq

/-- Sponge-engine invocations issued by `LYRA2`: `initState`, the per-block
`absorbBlock` launches, the two `reducedSqueezeRow` launches for rows 0
and 1, `setupGPU`, `wandering`, the wrap-up `absorbBlock` of row rowa,
and the final `squeeze`. -/
inductive EngineOp where
  | initStateE
  | absorbE (i : Nat)
  | rsrE (row : Nat)
  | setupE
  | wanderingE
  | absorbRowE (rowa : Nat)
  | squeezeE
deriving DecidableEq, BEq

/-- Observable events of one `LYRA2` run: resource acquisition, resource
release, staging the padded input to the device (the `cudaMemcpy` of
line 235), zeroization of a sensitive buffer, and engine invocations. -/
inductive Event where
  | acq (r : Res)
  | rel (r : Res)
  | stage
  | wipe (r : Res)
  | eng (o : EngineOp)
deriving DecidableEq, BEq

/-- Fault environment for one run: which fallible operation succeeds.
`rowaVal` is the row index the wandering kernel leaves in the device
cell (the kernel itself is outside the given sources). -/
structure Env where
  allocMatrix : Bool
  memsetMatrix : Bool
  mallocStateHost : Bool
  allocStateDev : Bool
  memsetStateDev : Bool
  allocRowA : Bool
  memsetRowA : Bool
  mallocMatrixHost : Bool
  memcpyToDev : Bool
  initStateOk : Bool
  absorbOk : Nat → Bool
  rsr0Ok : Bool
  rsr1Ok : Bool
  setupOk : Bool
  wanderingOk : Bool
  memcpyRowaOk : Bool
  wrapAbsorbOk : Bool
  squeezeOk : Bool
  finalWipeOk : Bool
  rowaVal : Nat

/-- Environment in which every operation succeeds and the wandering
kernel reports row 0. -/
def envOK : Env :=
  ⟨true, true, true, true, true, true, true, true, true, true,
   fun _ => true, true, true, true, true, true, true, true, true, 0⟩

/-- Cleanup of the failure paths that run before the device row-index
cell is acquired (Lyra2.cu lines 144-146 and 158-163): free the host
state, the device state, then the device matrix. -/
def clStd3 : List Event :=
  [Event.rel Res.stateHost, Event.rel Res.stateDev, Event.rel Res.matrixDev]

/-- Cleanup of the standard failure paths after the row-index cell is
acquired (e.g. Lyra2.cu lines 172-178, 238-244, 265-271): free the host
state, the device state, the device matrix, then the row-index cell.
The host staging row is not freed here. -/
def clStd4 : List Event :=
  [Event.rel Res.stateHost, Event.rel Res.stateDev, Event.rel Res.matrixDev,
   Event.rel Res.rowADev]

/-- Cleanup of the failure path at the final state wipe (Lyra2.cu lines
356-359), taken after the device matrix was already freed at line 350:
free the host state, the host staging row, the device state, then the
row-index cell. -/
def clWipeFail : List Event :=
  [Event.rel Res.stateHost, Event.rel Res.matrixHost, Event.rel Res.stateDev,
   Event.rel Res.rowADev]

/-- Cleanup of the success path (Lyra2.cu lines 362-365), after the matrix
free at line 350 and the state wipe at line 352: free the device state,
the row-index cell, the host state, then the host staging row. -/
def clSuccess : List Event :=
  [Event.rel Res.stateDev, Event.rel Res.rowADev, Event.rel Res.stateHost,
   Event.rel Res.matrixHost]

/-- The absorb loop of Lyra2.cu lines 260-275: for each of the remaining
`n` blocks starting at index `i`, launch `absorbBlock` and poll
`cudaGetLastError`.  `err` is the sticky CUDA error carried into the
loop (set when the unchecked `initState` call of line 252 failed).
Returns the emitted events, whether a check tripped (early failure
return), and the sticky error left when the loop ran to completion. -/
def absorbLoop (env : Env) : Nat → Nat → Bool → List Event × Bool × Bool
  | _, 0, err => ([], false, err)
  | i, n + 1, err =>
    let err1 := err || !env.absorbOk i
    if err1 then ([Event.eng (EngineOp.absorbE i)], true, false)
    else
      let rest := absorbLoop env (i + 1) n false
      (Event.eng (EngineOp.absorbE i) :: rest.1, rest.2.1, rest.2.2)

/-- Trace model of `LYRA2` (Lyra2.cu lines 80-374).  The events follow the
source line by line; each `cudaGetLastError` check is polled exactly
where the source polls it, with sticky error semantics, and each failure
branch emits the frees that branch performs (a `free`/`cudaFree` of a
pointer whose allocation failed is a no-op and emits nothing).  Returns
the event trace and the status result (0 or -1). -/
def LYRA2run (pwdlen saltlen : Nat) (env : Env) : List Event × Int :=
  if pwdlen + saltlen > rowLenBytes then ([], -1) else
  if !env.allocMatrix then ([], -1) else
  if !env.memsetMatrix then ([Event.acq Res.matrixDev, Event.rel Res.matrixDev], -1) else
  if !env.mallocStateHost then ([Event.acq Res.matrixDev, Event.rel Res.matrixDev], -1) else
  if !env.allocStateDev then
    ([Event.acq Res.matrixDev, Event.acq Res.stateHost,
      Event.rel Res.matrixDev, Event.rel Res.stateHost], -1) else
  if !env.memsetStateDev then
    ([Event.acq Res.matrixDev, Event.acq Res.stateHost, Event.acq Res.stateDev] ++ clStd3, -1) else
  if !env.allocRowA then
    ([Event.acq Res.matrixDev, Event.acq Res.stateHost, Event.acq Res.stateDev] ++ clStd3, -1) else
  if !env.memsetRowA then
    ([Event.acq Res.matrixDev, Event.acq Res.stateHost, Event.acq Res.stateDev,
      Event.acq Res.rowADev] ++ clStd4, -1) else
  if !env.mallocMatrixHost then
    ([Event.acq Res.matrixDev, Event.acq Res.stateHost, Event.acq Res.stateDev,
      Event.acq Res.rowADev] ++ clStd4, -1) else
  let t5 : List Event :=
    [Event.acq Res.matrixDev, Event.acq Res.stateHost, Event.acq Res.stateDev,
     Event.acq Res.rowADev, Event.acq Res.matrixHost]
  if !env.memcpyToDev then (t5 ++ clStd4, -1) else
  let t6 := t5 ++ [Event.stage, Event.wipe Res.matrixHost, Event.eng EngineOp.initStateE]
  let ar := absorbLoop env 0 (nBlocksInput pwdlen saltlen) (!env.initStateOk)
  let t7 := t6 ++ ar.1
  if ar.2.1 then (t7 ++ clStd4, -1) else
  let t8 := t7 ++ [Event.eng (EngineOp.rsrE 0), Event.eng (EngineOp.rsrE 1),
                   Event.eng EngineOp.setupE]
  if ar.2.2 || !env.rsr0Ok || !env.rsr1Ok || !env.setupOk then (t8 ++ clStd4, -1) else
  let t9 := t8 ++ [Event.eng EngineOp.wanderingE]
  if !env.wanderingOk then (t9 ++ clStd4, -1) else
  if !env.memcpyRowaOk then (t9 ++ clStd4, -1) else
  let t10 := t9 ++ [Event.eng (EngineOp.absorbRowE env.rowaVal)]
  if !env.wrapAbsorbOk then (t10 ++ clStd4, -1) else
  let t11 := t10 ++ [Event.eng EngineOp.squeezeE, Event.rel Res.matrixDev]
  let t12 := t11 ++ (if env.finalWipeOk then [Event.wipe Res.stateDev] else [])
  if !env.squeezeOk || !env.finalWipeOk then (t12 ++ clWipeFail, -1) else
  (t12 ++ clSuccess, 0)

/-- Number of occurrences of an event in a trace. -/
def countEv (tr : List Event) (e : Event) : Nat :=
  (tr.filter (fun x => decide (x = e))).length

/-- The trace of the success path: every acquisition, the staging and
password wipe, all engine invocations in source order, then the
releases. -/
def fullTrace (pwdlen saltlen rowa : Nat) : List Event :=
  [Event.acq Res.matrixDev, Event.acq Res.stateHost, Event.acq Res.stateDev,
   Event.acq Res.rowADev, Event.acq Res.matrixHost,
   Event.stage, Event.wipe Res.matrixHost, Event.eng EngineOp.initStateE] ++
  (List.range (nBlocksInput pwdlen saltlen)).map (fun j => Event.eng (EngineOp.absorbE j)) ++
  [Event.eng (EngineOp.rsrE 0), Event.eng (EngineOp.rsrE 1), Event.eng EngineOp.setupE,
   Event.eng EngineOp.wanderingE, Event.eng (EngineOp.absorbRowE rowa),
   Event.eng EngineOp.squeezeE, Event.rel Res.matrixDev, Event.wipe Res.stateDev,
   Event.rel Res.stateDev, Event.rel Res.rowADev, Event.rel Res.stateHost,
   Event.rel Res.matrixHost]


/-- A list consisting only of absorb-block engine events (the shape of
what the absorb loop emits). -/
def absorbOnly (l : List Event) : Prop :=
  ∀ e ∈ l, ∃ j, e = Event.eng (EngineOp.absorbE j)

/-- Acquisition prefix after the device state is allocated. -/
def preA3 : List Event :=
  [Event.acq Res.matrixDev, Event.acq Res.stateHost, Event.acq Res.stateDev]

/-- Acquisition prefix after the row-index cell is allocated. -/
def preA4 : List Event := preA3 ++ [Event.acq Res.rowADev]

/-- Acquisition prefix after the host staging row is allocated. -/
def preA5 : List Event := preA4 ++ [Event.acq Res.matrixHost]

/-- Events up to and including the staging copy, the password wipe and
the `initState` invocation. -/
def preStage : List Event :=
  preA5 ++ [Event.stage, Event.wipe Res.matrixHost, Event.eng EngineOp.initStateE]

/-- Environment failing the staging copy to the device (Lyra2.cu line 235). -/
def envMemcpyFail : Env := { envOK with memcpyToDev := false }

/-- Environment failing the wandering kernel (Lyra2.cu line 298). -/
def envWanderFail : Env := { envOK with wanderingOk := false }

/-- Environment failing every absorb-block launch (Lyra2.cu line 261). -/
def envAbsorbFail : Env := { envOK with absorbOk := fun _ => false }

/-- Environment failing the final sponge-state wipe (Lyra2.cu line 352). -/
def envWipeFail : Env := { envOK with finalWipeOk := false }

theorem intLE_length (v : Nat) : (intLE v).length = 4 := rfl

theorem basilBytes_length (k p s t r c : Nat) : (basilBytes k p s t r c).length = 24 := rfl

theorem writeBytes_concat (buf : Nat → Nat) (off off2 : Nat) (d1 d2 : List Nat)
    (h : off2 = off + d1.length) :
    writeBytes (writeBytes buf off d1) off2 d2 = writeBytes buf off (d1 ++ d2) := by
  subst h
  funext i
  unfold writeBytes
  by_cases h2 : off + d1.length ≤ i ∧ i < off + d1.length + d2.length
  · rw [if_pos h2, if_pos (by simp [List.length_append]; omega :
      off ≤ i ∧ i < off + (d1 ++ d2).length)]
    rw [List.getD_append_right d1 d2 0 (i - off) (by omega)]
    congr 1
    omega
  · rw [if_neg h2]
    by_cases h1 : off ≤ i ∧ i < off + d1.length
    · rw [if_pos h1, if_pos (by simp [List.length_append]; omega :
        off ≤ i ∧ i < off + (d1 ++ d2).length)]
      rw [List.getD_append d1 d2 0 (i - off) (by omega)]
    · rw [if_neg h1, if_neg (by simp [List.length_append]; omega :
        ¬(off ≤ i ∧ i < off + (d1 ++ d2).length))]

theorem stagedBytes_eq (pwd salt : List Nat) (k t r c : Nat) :
    stagedBytes pwd salt k t r c =
      writeBytes (fun _ => 0) 0
        (pwd ++ salt ++ basilBytes k pwd.length salt.length t r c) := by
  simp only [stagedBytes, basilBytes]
  rw [writeBytes_concat _ 0 pwd.length pwd salt (by omega),
      writeBytes_concat _ 0 (pwd.length + salt.length) (pwd ++ salt) (intLE k)
        (by simp),
      writeBytes_concat _ 0 (pwd.length + salt.length + 4) (pwd ++ salt ++ intLE k)
        (intLE pwd.length) (by simp [intLE_length]; omega),
      writeBytes_concat _ 0 (pwd.length + salt.length + 8) _
        (intLE salt.length) (by simp [intLE_length]; omega),
      writeBytes_concat _ 0 (pwd.length + salt.length + 12) _
        (intLE t) (by simp [intLE_length]; omega),
      writeBytes_concat _ 0 (pwd.length + salt.length + 16) _
        (intLE r) (by simp [intLE_length]; omega),
      writeBytes_concat _ 0 (pwd.length + salt.length + 20) _
        (intLE c) (by simp [intLE_length]; omega)]
  simp [List.append_assoc]

theorem stagedBytes_out_of_range (pwd salt : List Nat) (k t r c : Nat) (j : Nat)
    (h : pwd.length + salt.length + 24 ≤ j) :
    stagedBytes pwd salt k t r c j = 0 := by
  rw [stagedBytes_eq]
  unfold writeBytes
  rw [if_neg]
  simp [basilBytes_length]
  omega

theorem mark_le_last (p s : Nat) :
    p + s + 24 ≤ nBlocksInput p s * blockLenBytes - 1 := by
  unfold nBlocksInput blockLenBytes blockLenInt64 sizeofInt
  omega

/-- Claim C1: for every password and salt length, the number of input
blocks reserved by the padding builder equals
floor((pwdLen + saltLen + 6*sizeof(int)) / blockLenBytes) + 1, and when
the sum is an exact multiple of the block length one full additional
block is still reserved: the reserved footprint is the sum plus a whole
extra block. -/
theorem claim1_block_count (p s : Nat) :
    nBlocksInput p s = (p + s + 6 * sizeofInt) / blockLenBytes + 1 ∧
    (blockLenBytes ∣ (p + s + 6 * sizeofInt) →
      nBlocksInput p s * blockLenBytes = (p + s + 6 * sizeofInt) + blockLenBytes) := by
  constructor
  · unfold nBlocksInput
    rw [Nat.add_comm s p]
  · intro hdvd
    unfold nBlocksInput
    rw [Nat.add_comm s p, Nat.add_mul, Nat.one_mul, Nat.div_mul_cancel hdvd]

/-- Witness for claim C1 at the block-aligned input pwdlen = 20,
saltlen = 20 (20 + 20 + 24 = 64 is exactly one block): the builder still
reserves an extra block, for a footprint of two blocks. -/
theorem claim1_block_count_witness :
    blockLenBytes ∣ (20 + 20 + 6 * sizeofInt) ∧
    nBlocksInput 20 20 * blockLenBytes = (20 + 20 + 6 * sizeofInt) + blockLenBytes :=
  ⟨by decide, (claim1_block_count 20 20).2 (by decide)⟩

/-- Claim C3: the byte sequence staged for absorption (before the two
padding edits, which only touch offsets at or past the end of the data)
is password || salt || basil, where the basil is the six integers kLen,
pwdlen, saltlen, timeCost, nRows, nCols serialized in that order, each
as a 32-bit integer, immediately after password || salt.  Stated for
every offset inside the concatenated data. -/
theorem claim3_staged_layout (pwd salt : List Nat) (k t r c : Nat) (i : Nat)
    (h : i < pwd.length + salt.length + 24) :
    buildPadded pwd salt k t r c i =
      (pwd ++ salt ++ basilBytes k pwd.length salt.length t r c).getD i 0 := by
  have hml := mark_le_last pwd.length salt.length
  unfold buildPadded
  rw [Function.update_noteq (by omega) _ _, Function.update_noteq (by omega) _ _,
      stagedBytes_eq]
  unfold writeBytes
  rw [if_pos (by simp [basilBytes_length]; omega)]
  rw [Nat.sub_zero]

/-- Witness for claim C3: with password [7] and salt [9], the staged byte
at offset 3 (inside the basil, second byte of leKen = 64) matches the
concatenation password || salt || basil. -/
theorem claim3_staged_layout_witness :
    buildPadded [7] [9] 64 1 4 64 3 =
      ([7] ++ [9] ++ basilBytes 64 1 1 1 4 64).getD 3 0 :=
  claim3_staged_layout [7] [9] 64 1 4 64 3 (by decide)

/-- Claim C2: the builder writes 0x80 at the byte immediately following
the basil and then XORs the last byte of the last reserved block with
0x01.  When the two positions differ, the 0x80 marker survives and the
last byte (previously zero) becomes 0x01; when they coincide, both edits
apply in sequence and the byte is 0x80 XOR 0x01. -/
theorem claim2_padding_marks (pwd salt : List Nat) (k t r c : Nat) :
    (pwd.length + salt.length + 24 ≠ nBlocksInput pwd.length salt.length * blockLenBytes - 1 →
      buildPadded pwd salt k t r c (pwd.length + salt.length + 24) = 0x80 ∧
      buildPadded pwd salt k t r c
        (nBlocksInput pwd.length salt.length * blockLenBytes - 1) = 0x01) ∧
    (pwd.length + salt.length + 24 = nBlocksInput pwd.length salt.length * blockLenBytes - 1 →
      buildPadded pwd salt k t r c
        (nBlocksInput pwd.length salt.length * blockLenBytes - 1) = Nat.xor 0x80 0x01) := by
  have hml := mark_le_last pwd.length salt.length
  constructor
  · intro hne
    constructor
    · unfold buildPadded
      rw [Function.update_noteq (by omega) _ _, Function.update_same]
    · unfold buildPadded
      rw [Function.update_same,
          Function.update_noteq (by omega) _ _,
          stagedBytes_out_of_range pwd salt k t r c _ (by omega)]
      decide
  · intro heq
    unfold buildPadded
    rw [Function.update_same, ← heq, Function.update_same]

/-- Witness for claim C2, both branches: with empty password and salt the
marker offset is 24 and the last byte of the single reserved block is
offset 63, so the marks land apart (0x80 and 0x01); with a 39-byte
password and empty salt both positions are offset 63 and the byte is
0x80 XOR 0x01 = 0x81. -/
theorem claim2_padding_marks_witness :
    (buildPadded [] [] 10 1 4 64 24 = 0x80 ∧
      buildPadded [] [] 10 1 4 64 63 = 0x01) ∧
    buildPadded (List.replicate 39 65) [] 10 1 4 64 63 = Nat.xor 0x80 0x01 := by
  refine ⟨?_, ?_⟩
  · exact (claim2_padding_marks [] [] 10 1 4 64).1 (by decide)
  · exact (claim2_padding_marks (List.replicate 39 65) [] 10 1 4 64).2 (by decide)

theorem countEv_nil (e : Event) : countEv [] e = 0 := rfl

theorem countEv_cons (a : Event) (l : List Event) (e : Event) :
    countEv (a :: l) e = (if a = e then 1 else 0) + countEv l e := by
  unfold countEv
  by_cases h : a = e
  · simp [List.filter, h]
    omega
  · simp [List.filter, h]

theorem countEv_append (l1 l2 : List Event) (e : Event) :
    countEv (l1 ++ l2) e = countEv l1 e + countEv l2 e := by
  unfold countEv
  rw [List.filter_append, List.length_append]

theorem countEv_eq_zero (l : List Event) (e : Event) (h : ∀ a ∈ l, a ≠ e) :
    countEv l e = 0 := by
  unfold countEv
  rw [List.length_eq_zero, List.filter_eq_nil_iff]
  intro a ha
  simpa using h a ha

theorem absorbLoop_mem (env : Env) :
    ∀ n i err e, e ∈ (absorbLoop env i n err).1 → ∃ j, e = Event.eng (EngineOp.absorbE j) := by
  intro n
  induction n with
  | zero => intro i err e he; simp [absorbLoop] at he
  | succ m ih =>
    intro i err e he
    unfold absorbLoop at he
    by_cases h1 : (err || !env.absorbOk i) = true
    · rw [if_pos h1] at he
      simp at he
      exact ⟨i, he⟩
    · rw [if_neg h1] at he
      simp at he
      rcases he with he | he
      · exact ⟨i, he⟩
      · exact ih (i + 1) false e he

theorem absorbLoop_count_acq (env : Env) (i n : Nat) (err : Bool) (r : Res) :
    countEv (absorbLoop env i n err).1 (Event.acq r) = 0 := by
  apply countEv_eq_zero
  intro a ha
  obtain ⟨j, rfl⟩ := absorbLoop_mem env n i err a ha
  simp

theorem absorbLoop_count_rel (env : Env) (i n : Nat) (err : Bool) (r : Res) :
    countEv (absorbLoop env i n err).1 (Event.rel r) = 0 := by
  apply countEv_eq_zero
  intro a ha
  obtain ⟨j, rfl⟩ := absorbLoop_mem env n i err a ha
  simp

theorem absorbLoop_count_wipe (env : Env) (i n : Nat) (err : Bool) (r : Res) :
    countEv (absorbLoop env i n err).1 (Event.wipe r) = 0 := by
  apply countEv_eq_zero
  intro a ha
  obtain ⟨j, rfl⟩ := absorbLoop_mem env n i err a ha
  simp

theorem absorbLoop_count_stage (env : Env) (i n : Nat) (err : Bool) :
    countEv (absorbLoop env i n err).1 Event.stage = 0 := by
  apply countEv_eq_zero
  intro a ha
  obtain ⟨j, rfl⟩ := absorbLoop_mem env n i err a ha
  simp

theorem absorbLoop_count_squeeze (env : Env) (i n : Nat) (err : Bool) :
    countEv (absorbLoop env i n err).1 (Event.eng EngineOp.squeezeE) = 0 := by
  apply countEv_eq_zero
  intro a ha
  obtain ⟨j, rfl⟩ := absorbLoop_mem env n i err a ha
  simp

theorem absorbLoop_not_tripped (env : Env) :
    ∀ n i err, (absorbLoop env i n err).2.1 = false →
      (absorbLoop env i n err).1 =
        (List.range' i n).map (fun j => Event.eng (EngineOp.absorbE j)) ∧
      (n ≠ 0 → err = false ∧ (absorbLoop env i n err).2.2 = false) ∧
      (∀ j, i ≤ j → j < i + n → env.absorbOk j = true) := by
  intro n
  induction n with
  | zero =>
    intro i err _
    refine ⟨rfl, fun h => absurd rfl h, fun j h1 h2 => ?_⟩
    omega
  | succ m ih =>
    intro i err htr
    by_cases h1 : (err || !env.absorbOk i) = true
    · exfalso
      simp [absorbLoop, h1] at htr
    · have herr : err = false := by
        cases err
        · rfl
        · exact absurd (by simp) h1
      have habs : env.absorbOk i = true := by
        cases hb : env.absorbOk i
        · exact absurd (by simp [hb]) h1
        · rfl
      have hite : absorbLoop env i (m + 1) err =
          (Event.eng (EngineOp.absorbE i) :: (absorbLoop env (i + 1) m false).1,
            (absorbLoop env (i + 1) m false).2.1, (absorbLoop env (i + 1) m false).2.2) := by
        simp only [absorbLoop, if_neg h1]
      have htr' : (absorbLoop env (i + 1) m false).2.1 = false := by
        rw [hite] at htr
        exact htr
      have ih' := ih (i + 1) false htr'
      rw [hite]
      refine ⟨?_, fun _ => ⟨herr, ?_⟩, ?_⟩
      · show Event.eng (EngineOp.absorbE i) :: (absorbLoop env (i + 1) m false).1 = _
        rw [List.range'_succ i m 1, List.map_cons, ih'.1]
      · show (absorbLoop env (i + 1) m false).2.2 = false
        by_cases hm : m = 0
        · subst hm
          simp [absorbLoop]
        · exact (ih'.2.1 hm).2
      · intro j hj1 hj2
        by_cases hji : j = i
        · subst hji
          exact habs
        · exact ih'.2.2 j (by omega) (by omega)

theorem nBlocksInput_pos (p s : Nat) : nBlocksInput p s ≠ 0 :=
  Nat.succ_ne_zero _

theorem countEv_absorbOnly (l : List Event) (h : absorbOnly l) (e : Event)
    (he : ∀ j, e ≠ Event.eng (EngineOp.absorbE j)) : countEv l e = 0 := by
  apply countEv_eq_zero
  intro a ha
  obtain ⟨j, rfl⟩ := h a ha
  exact fun hc => he j hc.symm

set_option maxHeartbeats 1000000 in
theorem LYRA2run_cases (p s : Nat) (env : Env) :
    LYRA2run p s env = ([], -1) ∨
    LYRA2run p s env = ([Event.acq Res.matrixDev, Event.rel Res.matrixDev], -1) ∨
    LYRA2run p s env = ([Event.acq Res.matrixDev, Event.acq Res.stateHost,
      Event.rel Res.matrixDev, Event.rel Res.stateHost], -1) ∨
    LYRA2run p s env = (preA3 ++ clStd3, -1) ∨
    LYRA2run p s env = (preA4 ++ clStd4, -1) ∨
    LYRA2run p s env = (preA5 ++ clStd4, -1) ∨
    (∃ evts, absorbOnly evts ∧
      LYRA2run p s env = (preStage ++ evts ++ clStd4, -1)) ∨
    (∃ evts, absorbOnly evts ∧
      LYRA2run p s env = (preStage ++ evts ++
        [Event.eng (EngineOp.rsrE 0), Event.eng (EngineOp.rsrE 1),
         Event.eng EngineOp.setupE] ++ clStd4, -1)) ∨
    (∃ evts, absorbOnly evts ∧
      LYRA2run p s env = (preStage ++ evts ++
        [Event.eng (EngineOp.rsrE 0), Event.eng (EngineOp.rsrE 1),
         Event.eng EngineOp.setupE, Event.eng EngineOp.wanderingE] ++ clStd4, -1)) ∨
    (∃ evts, absorbOnly evts ∧
      LYRA2run p s env = (preStage ++ evts ++
        [Event.eng (EngineOp.rsrE 0), Event.eng (EngineOp.rsrE 1),
         Event.eng EngineOp.setupE, Event.eng EngineOp.wanderingE,
         Event.eng (EngineOp.absorbRowE env.rowaVal)] ++ clStd4, -1)) ∨
    (∃ evts wl, absorbOnly evts ∧
      (wl = [] ∨ wl = [Event.wipe Res.stateDev]) ∧
      (env.squeezeOk = false ∨ env.finalWipeOk = false) ∧
      LYRA2run p s env = (preStage ++ evts ++
        [Event.eng (EngineOp.rsrE 0), Event.eng (EngineOp.rsrE 1),
         Event.eng EngineOp.setupE, Event.eng EngineOp.wanderingE,
         Event.eng (EngineOp.absorbRowE env.rowaVal), Event.eng EngineOp.squeezeE,
         Event.rel Res.matrixDev] ++ wl ++ clWipeFail, -1)) ∨
    ((env.initStateOk = true ∧ (∀ i, i < nBlocksInput p s → env.absorbOk i = true) ∧
      env.rsr0Ok = true ∧ env.rsr1Ok = true ∧ env.setupOk = true ∧
      env.wanderingOk = true ∧ env.memcpyRowaOk = true ∧ env.wrapAbsorbOk = true ∧
      env.squeezeOk = true ∧ env.finalWipeOk = true) ∧
      LYRA2run p s env = (fullTrace p s env.rowaVal, 0)) := by
  by_cases h0 : p + s > rowLenBytes
  · exact Or.inl (by simp only [LYRA2run, if_pos h0])
  by_cases h1 : (!env.allocMatrix) = true
  · exact Or.inl (by simp only [LYRA2run, if_neg h0, if_pos h1])
  by_cases h2 : (!env.memsetMatrix) = true
  · exact Or.inr (Or.inl (by simp only [LYRA2run, if_neg h0, if_neg h1, if_pos h2]))
  by_cases h3 : (!env.mallocStateHost) = true
  · exact Or.inr (Or.inl (by
      simp only [LYRA2run, if_neg h0, if_neg h1, if_neg h2, if_pos h3]))
  by_cases h4 : (!env.allocStateDev) = true
  · exact Or.inr (Or.inr (Or.inl (by
      simp only [LYRA2run, if_neg h0, if_neg h1, if_neg h2, if_neg h3, if_pos h4])))
  by_cases h5 : (!env.memsetStateDev) = true
  · refine Or.inr (Or.inr (Or.inr (Or.inl ?_)))
    simp only [LYRA2run, if_neg h0, if_neg h1, if_neg h2, if_neg h3, if_neg h4, if_pos h5]
    simp [preA3]
  by_cases h6 : (!env.allocRowA) = true
  · refine Or.inr (Or.inr (Or.inr (Or.inl ?_)))
    simp only [LYRA2run, if_neg h0, if_neg h1, if_neg h2, if_neg h3, if_neg h4, if_neg h5,
      if_pos h6]
    simp [preA3]
  by_cases h7 : (!env.memsetRowA) = true
  · refine Or.inr (Or.inr (Or.inr (Or.inr (Or.inl ?_))))
    simp only [LYRA2run, if_neg h0, if_neg h1, if_neg h2, if_neg h3, if_neg h4, if_neg h5,
      if_neg h6, if_pos h7]
    simp [preA4, preA3]
  by_cases h8 : (!env.mallocMatrixHost) = true
  · refine Or.inr (Or.inr (Or.inr (Or.inr (Or.inl ?_))))
    simp only [LYRA2run, if_neg h0, if_neg h1, if_neg h2, if_neg h3, if_neg h4, if_neg h5,
      if_neg h6, if_neg h7, if_pos h8]
    simp [preA4, preA3]
  by_cases h9 : (!env.memcpyToDev) = true
  · refine Or.inr (Or.inr (Or.inr (Or.inr (Or.inr (Or.inl ?_)))))
    simp only [LYRA2run, if_neg h0, if_neg h1, if_neg h2, if_neg h3, if_neg h4, if_neg h5,
      if_neg h6, if_neg h7, if_neg h8, if_pos h9]
    simp [preA5, preA4, preA3]
  by_cases h10 : (absorbLoop env 0 (nBlocksInput p s) (!env.initStateOk)).2.1 = true
  · refine Or.inr (Or.inr (Or.inr (Or.inr (Or.inr (Or.inr (Or.inl
      ⟨(absorbLoop env 0 (nBlocksInput p s) (!env.initStateOk)).1,
       fun e he => absorbLoop_mem env _ _ _ e he, ?_⟩))))))
    simp only [LYRA2run, if_neg h0, if_neg h1, if_neg h2, if_neg h3, if_neg h4, if_neg h5,
      if_neg h6, if_neg h7, if_neg h8, if_neg h9, if_pos h10]
    simp [preStage, preA5, preA4, preA3]
  by_cases h11 : ((absorbLoop env 0 (nBlocksInput p s) (!env.initStateOk)).2.2 ||
      !env.rsr0Ok || !env.rsr1Ok || !env.setupOk) = true
  · refine Or.inr (Or.inr (Or.inr (Or.inr (Or.inr (Or.inr (Or.inr (Or.inl
      ⟨(absorbLoop env 0 (nBlocksInput p s) (!env.initStateOk)).1,
       fun e he => absorbLoop_mem env _ _ _ e he, ?_⟩)))))))
    simp only [LYRA2run, if_neg h0, if_neg h1, if_neg h2, if_neg h3, if_neg h4, if_neg h5,
      if_neg h6, if_neg h7, if_neg h8, if_neg h9, if_neg h10, if_pos h11]
    simp [preStage, preA5, preA4, preA3]
  by_cases h12 : (!env.wanderingOk) = true
  · refine Or.inr (Or.inr (Or.inr (Or.inr (Or.inr (Or.inr (Or.inr (Or.inr (Or.inl
      ⟨(absorbLoop env 0 (nBlocksInput p s) (!env.initStateOk)).1,
       fun e he => absorbLoop_mem env _ _ _ e he, ?_⟩))))))))
    simp only [LYRA2run, if_neg h0, if_neg h1, if_neg h2, if_neg h3, if_neg h4, if_neg h5,
      if_neg h6, if_neg h7, if_neg h8, if_neg h9, if_neg h10, if_neg h11, if_pos h12]
    simp [preStage, preA5, preA4, preA3]
  by_cases h13 : (!env.memcpyRowaOk) = true
  · refine Or.inr (Or.inr (Or.inr (Or.inr (Or.inr (Or.inr (Or.inr (Or.inr (Or.inl
      ⟨(absorbLoop env 0 (nBlocksInput p s) (!env.initStateOk)).1,
       fun e he => absorbLoop_mem env _ _ _ e he, ?_⟩))))))))
    simp only [LYRA2run, if_neg h0, if_neg h1, if_neg h2, if_neg h3, if_neg h4, if_neg h5,
      if_neg h6, if_neg h7, if_neg h8, if_neg h9, if_neg h10, if_neg h11, if_neg h12,
      if_pos h13]
    simp [preStage, preA5, preA4, preA3]
  by_cases h14 : (!env.wrapAbsorbOk) = true
  · refine Or.inr (Or.inr (Or.inr (Or.inr (Or.inr (Or.inr (Or.inr (Or.inr (Or.inr (Or.inl
      ⟨(absorbLoop env 0 (nBlocksInput p s) (!env.initStateOk)).1,
       fun e he => absorbLoop_mem env _ _ _ e he, ?_⟩)))))))))
    simp only [LYRA2run, if_neg h0, if_neg h1, if_neg h2, if_neg h3, if_neg h4, if_neg h5,
      if_neg h6, if_neg h7, if_neg h8, if_neg h9, if_neg h10, if_neg h11, if_neg h12,
      if_neg h13, if_pos h14]
    simp [preStage, preA5, preA4, preA3]
  by_cases h15 : (!env.squeezeOk || !env.finalWipeOk) = true
  · refine Or.inr (Or.inr (Or.inr (Or.inr (Or.inr (Or.inr (Or.inr (Or.inr (Or.inr (Or.inr
      (Or.inl ?_))))))))))
    by_cases hW : env.finalWipeOk = true
    · refine ⟨(absorbLoop env 0 (nBlocksInput p s) (!env.initStateOk)).1,
        [Event.wipe Res.stateDev],
        fun e he => absorbLoop_mem env _ _ _ e he, Or.inr rfl, ?_, ?_⟩
      · left
        revert h15
        rw [hW]
        cases env.squeezeOk <;> simp
      · simp only [LYRA2run, if_neg h0, if_neg h1, if_neg h2, if_neg h3, if_neg h4,
          if_neg h5, if_neg h6, if_neg h7, if_neg h8, if_neg h9, if_neg h10, if_neg h11,
          if_neg h12, if_neg h13, if_neg h14, if_pos h15, if_pos hW]
        simp [preStage, preA5, preA4, preA3]
    · refine ⟨(absorbLoop env 0 (nBlocksInput p s) (!env.initStateOk)).1, [],
        fun e he => absorbLoop_mem env _ _ _ e he, Or.inl rfl, ?_, ?_⟩
      · right
        revert hW
        cases env.finalWipeOk <;> simp
      · simp only [LYRA2run, if_neg h0, if_neg h1, if_neg h2, if_neg h3, if_neg h4,
          if_neg h5, if_neg h6, if_neg h7, if_neg h8, if_neg h9, if_neg h10, if_neg h11,
          if_neg h12, if_neg h13, if_neg h14, if_pos h15, if_neg hW]
        simp [preStage, preA5, preA4, preA3]
  · refine Or.inr (Or.inr (Or.inr (Or.inr (Or.inr (Or.inr (Or.inr (Or.inr (Or.inr (Or.inr
      (Or.inr ⟨?_, ?_⟩))))))))))
    · have hntr : (absorbLoop env 0 (nBlocksInput p s) (!env.initStateOk)).2.1 = false := by
        revert h10
        cases (absorbLoop env 0 (nBlocksInput p s) (!env.initStateOk)).2.1 <;> simp
      have hres := absorbLoop_not_tripped env (nBlocksInput p s) 0 (!env.initStateOk) hntr
      have herr := (hres.2.1 (nBlocksInput_pos p s)).1
      have hinit : env.initStateOk = true := by
        revert herr
        cases env.initStateOk <;> simp
      have habs : ∀ i, i < nBlocksInput p s → env.absorbOk i = true := by
        intro i hi
        exact hres.2.2 i (Nat.zero_le i) (by omega)
      have hrsr : env.rsr0Ok = true ∧ env.rsr1Ok = true ∧ env.setupOk = true := by
        revert h11
        cases env.rsr0Ok <;> cases env.rsr1Ok <;> cases env.setupOk <;> simp
      have hwan : env.wanderingOk = true := by
        revert h12
        cases env.wanderingOk <;> simp
      have hmr : env.memcpyRowaOk = true := by
        revert h13
        cases env.memcpyRowaOk <;> simp
      have hwr : env.wrapAbsorbOk = true := by
        revert h14
        cases env.wrapAbsorbOk <;> simp
      have hsw : env.squeezeOk = true ∧ env.finalWipeOk = true := by
        revert h15
        cases env.squeezeOk <;> cases env.finalWipeOk <;> simp
      exact ⟨hinit, habs, hrsr.1, hrsr.2.1, hrsr.2.2, hwan, hmr, hwr, hsw.1, hsw.2⟩
    · have hntr : (absorbLoop env 0 (nBlocksInput p s) (!env.initStateOk)).2.1 = false := by
        revert h10
        cases (absorbLoop env 0 (nBlocksInput p s) (!env.initStateOk)).2.1 <;> simp
      have hres := absorbLoop_not_tripped env (nBlocksInput p s) 0 (!env.initStateOk) hntr
      have hW : env.finalWipeOk = true := by
        revert h15
        cases env.squeezeOk <;> cases env.finalWipeOk <;> simp
      simp only [LYRA2run, if_neg h0, if_neg h1, if_neg h2, if_neg h3, if_neg h4,
        if_neg h5, if_neg h6, if_neg h7, if_neg h8, if_neg h9, if_neg h10, if_neg h11,
        if_neg h12, if_neg h13, if_neg h14, if_neg h15, if_pos hW]
      rw [hres.1]
      simp [fullTrace, List.range_eq_range', clSuccess]

theorem countEv_absorbMap (n : Nat) (e : Event)
    (he : ∀ j, e ≠ Event.eng (EngineOp.absorbE j)) :
    countEv ((List.range n).map (fun j => Event.eng (EngineOp.absorbE j))) e = 0 := by
  apply countEv_eq_zero
  intro a ha
  simp only [List.mem_map, List.mem_range] at ha
  obtain ⟨j, _, rfl⟩ := ha
  exact fun hc => he j hc.symm

set_option maxHeartbeats 1000000 in
theorem LYRA2run_counts (p s : Nat) (env : Env) (r : Res) :
    countEv (LYRA2run p s env).1 (Event.acq r) ≤ 1 ∧
    countEv (LYRA2run p s env).1 (Event.rel r) ≤ countEv (LYRA2run p s env).1 (Event.acq r) ∧
    (r ≠ Res.matrixHost →
      countEv (LYRA2run p s env).1 (Event.rel r) = countEv (LYRA2run p s env).1 (Event.acq r)) ∧
    ((LYRA2run p s env).2 = 0 →
      countEv (LYRA2run p s env).1 (Event.rel r) = countEv (LYRA2run p s env).1 (Event.acq r)) := by
  rcases LYRA2run_cases p s env with h | h | h | h | h | h | ⟨evts, ha, h⟩ | ⟨evts, ha, h⟩ |
    ⟨evts, ha, h⟩ | ⟨evts, ha, h⟩ | ⟨evts, wl, ha, hwl, hsq, h⟩ | ⟨hflags, h⟩
  · rw [h]
    cases r <;> simp [countEv_cons, countEv_nil]
  · rw [h]
    cases r <;> simp [countEv_cons, countEv_nil]
  · rw [h]
    cases r <;> simp [countEv_cons, countEv_nil]
  · rw [h]
    cases r <;> simp [countEv_append, countEv_cons, countEv_nil, preA3, clStd3]
  · rw [h]
    cases r <;> simp [countEv_append, countEv_cons, countEv_nil, preA4, preA3, clStd4]
  · rw [h]
    cases r <;> simp [countEv_append, countEv_cons, countEv_nil, preA5, preA4, preA3, clStd4]
  · rw [h]
    have hz := countEv_absorbOnly evts ha
    cases r <;> simp [countEv_append, countEv_cons, countEv_nil, preStage, preA5, preA4,
      preA3, clStd4, hz]
  · rw [h]
    have hz := countEv_absorbOnly evts ha
    cases r <;> simp [countEv_append, countEv_cons, countEv_nil, preStage, preA5, preA4,
      preA3, clStd4, hz]
  · rw [h]
    have hz := countEv_absorbOnly evts ha
    cases r <;> simp [countEv_append, countEv_cons, countEv_nil, preStage, preA5, preA4,
      preA3, clStd4, hz]
  · rw [h]
    have hz := countEv_absorbOnly evts ha
    cases r <;> simp [countEv_append, countEv_cons, countEv_nil, preStage, preA5, preA4,
      preA3, clStd4, hz]
  · rw [h]
    have hz := countEv_absorbOnly evts ha
    rcases hwl with rfl | rfl <;> cases r <;>
      simp [countEv_append, countEv_cons, countEv_nil, preStage, preA5, preA4,
        preA3, clWipeFail, hz]
  · rw [h]
    cases r <;> simp [countEv_append, countEv_cons, countEv_nil, fullTrace,
      countEv_absorbMap]

theorem LYRA2run_status (p s : Nat) (env : Env) :
    (LYRA2run p s env).2 = 0 ∨ (LYRA2run p s env).2 = -1 := by
  rcases LYRA2run_cases p s env with h | h | h | h | h | h | ⟨_, _, h⟩ | ⟨_, _, h⟩ |
    ⟨_, _, h⟩ | ⟨_, _, h⟩ | ⟨_, _, _, _, _, h⟩ | ⟨_, h⟩ <;> rw [h] <;> simp

theorem LYRA2run_success_trace (p s : Nat) (env : Env)
    (hres : (LYRA2run p s env).2 = 0) :
    (LYRA2run p s env).1 = fullTrace p s env.rowaVal := by
  rcases LYRA2run_cases p s env with h | h | h | h | h | h | ⟨_, _, h⟩ | ⟨_, _, h⟩ |
    ⟨_, _, h⟩ | ⟨_, _, h⟩ | ⟨_, _, _, _, _, h⟩ | ⟨_, h⟩ <;> rw [h] at hres ⊢ <;>
    simp_all

theorem LYRA2run_success_flags (p s : Nat) (env : Env)
    (hres : (LYRA2run p s env).2 = 0) :
    env.initStateOk = true ∧ (∀ i, i < nBlocksInput p s → env.absorbOk i = true) ∧
    env.rsr0Ok = true ∧ env.rsr1Ok = true ∧ env.setupOk = true ∧
    env.wanderingOk = true ∧ env.memcpyRowaOk = true ∧ env.wrapAbsorbOk = true ∧
    env.squeezeOk = true ∧ env.finalWipeOk = true := by
  rcases LYRA2run_cases p s env with h | h | h | h | h | h | ⟨_, _, h⟩ | ⟨_, _, h⟩ |
    ⟨_, _, h⟩ | ⟨_, _, h⟩ | ⟨_, _, _, _, _, h⟩ | ⟨hflags, h⟩
  all_goals (rw [h] at hres; simp at hres)
  exact hflags

theorem LYRA2run_squeeze_guard (p s : Nat) (env : Env)
    (hres : (LYRA2run p s env).2 = -1)
    (hsq : countEv (LYRA2run p s env).1 (Event.eng EngineOp.squeezeE) = 1) :
    env.squeezeOk = false ∨ env.finalWipeOk = false := by
  rcases LYRA2run_cases p s env with h | h | h | h | h | h | ⟨evts, ha, h⟩ | ⟨evts, ha, h⟩ |
    ⟨evts, ha, h⟩ | ⟨evts, ha, h⟩ | ⟨evts, wl, ha, hwl, hflag, h⟩ | ⟨_, h⟩
  · rw [h] at hsq
    simp [countEv_nil] at hsq
  · rw [h] at hsq
    simp [countEv_cons, countEv_nil] at hsq
  · rw [h] at hsq
    simp [countEv_cons, countEv_nil] at hsq
  · rw [h] at hsq
    simp [countEv_append, countEv_cons, countEv_nil, preA3, clStd3] at hsq
  · rw [h] at hsq
    simp [countEv_append, countEv_cons, countEv_nil, preA4, preA3, clStd4] at hsq
  · rw [h] at hsq
    simp [countEv_append, countEv_cons, countEv_nil, preA5, preA4, preA3, clStd4] at hsq
  · rw [h] at hsq
    have hz := countEv_absorbOnly evts ha
    simp [countEv_append, countEv_cons, countEv_nil, preStage, preA5, preA4, preA3,
      clStd4, hz] at hsq
  · rw [h] at hsq
    have hz := countEv_absorbOnly evts ha
    simp [countEv_append, countEv_cons, countEv_nil, preStage, preA5, preA4, preA3,
      clStd4, hz] at hsq
  · rw [h] at hsq
    have hz := countEv_absorbOnly evts ha
    simp [countEv_append, countEv_cons, countEv_nil, preStage, preA5, preA4, preA3,
      clStd4, hz] at hsq
  · rw [h] at hsq
    have hz := countEv_absorbOnly evts ha
    simp [countEv_append, countEv_cons, countEv_nil, preStage, preA5, preA4, preA3,
      clStd4, hz] at hsq
  · exact hflag
  · rw [h] at hres
    simp at hres

theorem LYRA2run_stage_wipe (p s : Nat) (env : Env)
    (hst : countEv (LYRA2run p s env).1 Event.stage = 1) :
    ∃ l1 l2, (LYRA2run p s env).1 =
      l1 ++ Event.stage :: Event.wipe Res.matrixHost :: l2 := by
  rcases LYRA2run_cases p s env with h | h | h | h | h | h | ⟨evts, ha, h⟩ | ⟨evts, ha, h⟩ |
    ⟨evts, ha, h⟩ | ⟨evts, ha, h⟩ | ⟨evts, wl, ha, hwl, hflag, h⟩ | ⟨_, h⟩
  · rw [h] at hst
    simp [countEv_nil] at hst
  · rw [h] at hst
    simp [countEv_cons, countEv_nil] at hst
  · rw [h] at hst
    simp [countEv_cons, countEv_nil] at hst
  · rw [h] at hst
    simp [countEv_append, countEv_cons, countEv_nil, preA3, clStd3] at hst
  · rw [h] at hst
    simp [countEv_append, countEv_cons, countEv_nil, preA4, preA3, clStd4] at hst
  · rw [h] at hst
    simp [countEv_append, countEv_cons, countEv_nil, preA5, preA4, preA3, clStd4] at hst
  · refine ⟨preA5, Event.eng EngineOp.initStateE :: (evts ++ clStd4), ?_⟩
    rw [h]
    simp [preStage, List.append_assoc]
  · refine ⟨preA5, Event.eng EngineOp.initStateE :: (evts ++
      ([Event.eng (EngineOp.rsrE 0), Event.eng (EngineOp.rsrE 1),
        Event.eng EngineOp.setupE] ++ clStd4)), ?_⟩
    rw [h]
    simp [preStage, List.append_assoc]
  · refine ⟨preA5, Event.eng EngineOp.initStateE :: (evts ++
      ([Event.eng (EngineOp.rsrE 0), Event.eng (EngineOp.rsrE 1),
        Event.eng EngineOp.setupE, Event.eng EngineOp.wanderingE] ++ clStd4)), ?_⟩
    rw [h]
    simp [preStage, List.append_assoc]
  · refine ⟨preA5, Event.eng EngineOp.initStateE :: (evts ++
      ([Event.eng (EngineOp.rsrE 0), Event.eng (EngineOp.rsrE 1),
        Event.eng EngineOp.setupE, Event.eng EngineOp.wanderingE,
        Event.eng (EngineOp.absorbRowE env.rowaVal)] ++ clStd4)), ?_⟩
    rw [h]
    simp [preStage, List.append_assoc]
  · refine ⟨preA5, Event.eng EngineOp.initStateE :: (evts ++
      ([Event.eng (EngineOp.rsrE 0), Event.eng (EngineOp.rsrE 1),
        Event.eng EngineOp.setupE, Event.eng EngineOp.wanderingE,
        Event.eng (EngineOp.absorbRowE env.rowaVal), Event.eng EngineOp.squeezeE,
        Event.rel Res.matrixDev] ++ wl ++ clWipeFail)), ?_⟩
    rw [h]
    simp [preStage, List.append_assoc]
  · refine ⟨[Event.acq Res.matrixDev, Event.acq Res.stateHost, Event.acq Res.stateDev,
      Event.acq Res.rowADev, Event.acq Res.matrixHost],
      Event.eng EngineOp.initStateE ::
        ((List.range (nBlocksInput p s)).map (fun j => Event.eng (EngineOp.absorbE j)) ++
         [Event.eng (EngineOp.rsrE 0), Event.eng (EngineOp.rsrE 1),
          Event.eng EngineOp.setupE, Event.eng EngineOp.wanderingE,
          Event.eng (EngineOp.absorbRowE env.rowaVal), Event.eng EngineOp.squeezeE,
          Event.rel Res.matrixDev, Event.wipe Res.stateDev, Event.rel Res.stateDev,
          Event.rel Res.rowADev, Event.rel Res.stateHost, Event.rel Res.matrixHost]), ?_⟩
    rw [h]
    simp [fullTrace, List.append_assoc]

theorem LYRA2run_success_state_wipe (p s : Nat) (env : Env)
    (hres : (LYRA2run p s env).2 = 0) :
    ∃ l1 l2, (LYRA2run p s env).1 =
      l1 ++ Event.wipe Res.stateDev :: Event.rel Res.stateDev :: l2 := by
  have ht := LYRA2run_success_trace p s env hres
  refine ⟨[Event.acq Res.matrixDev, Event.acq Res.stateHost, Event.acq Res.stateDev,
    Event.acq Res.rowADev, Event.acq Res.matrixHost, Event.stage,
    Event.wipe Res.matrixHost, Event.eng EngineOp.initStateE] ++
    ((List.range (nBlocksInput p s)).map (fun j => Event.eng (EngineOp.absorbE j)) ++
     [Event.eng (EngineOp.rsrE 0), Event.eng (EngineOp.rsrE 1),
      Event.eng EngineOp.setupE, Event.eng EngineOp.wanderingE,
      Event.eng (EngineOp.absorbRowE env.rowaVal), Event.eng EngineOp.squeezeE,
      Event.rel Res.matrixDev]),
    [Event.rel Res.rowADev, Event.rel Res.stateHost, Event.rel Res.matrixHost], ?_⟩
  rw [ht]
  simp [fullTrace, List.append_assoc]

/-- Claim C4: for every input with pwdlen + saltlen exceeding the row
byte capacity ROW_LEN_BYTES, LYRA2 returns -1 at the very first check
(Lyra2.cu line 85) with an empty event trace: no engine invocation, no
allocation, no resource acquired. -/
theorem claim4_reject (p s : Nat) (env : Env) (h : p + s > rowLenBytes) :
    LYRA2run p s env = ([], -1) := by
  simp only [LYRA2run, if_pos h]

/-- Witness for claim C4: a 4097-byte password with empty salt is
rejected up front with an empty trace. -/
theorem claim4_reject_witness : LYRA2run 4097 0 envOK = ([], -1) :=
  claim4_reject 4097 0 envOK (by decide)

/-- Counterexample to claim C5 as stated.  First part: with the staging
copy to the device failing (Lyra2.cu line 235), the run returns -1, the
host staging row was acquired, yet it is never released - a leak, so
"each resource acquired is released exactly once" fails.  Second part:
on the all-success run the device matrix is acquired before the device
sponge state but also released before it (Lyra2.cu line 350 precedes
line 362), so releases are not in reverse acquisition order. -/
theorem claim5_counterexample :
    (countEv (LYRA2run 8 8 envMemcpyFail).1 (Event.acq Res.matrixHost) = 1 ∧
     countEv (LYRA2run 8 8 envMemcpyFail).1 (Event.rel Res.matrixHost) = 0 ∧
     (LYRA2run 8 8 envMemcpyFail).2 = -1) ∧
    (List.indexOf (Event.acq Res.matrixDev) (LYRA2run 1 1 envOK).1 <
     List.indexOf (Event.acq Res.stateDev) (LYRA2run 1 1 envOK).1 ∧
     List.indexOf (Event.rel Res.matrixDev) (LYRA2run 1 1 envOK).1 <
     List.indexOf (Event.rel Res.stateDev) (LYRA2run 1 1 envOK).1) := by decide

/-- Claim C5 as amended: on every exit path no resource is ever acquired
or released twice, the device matrix, host sponge state, device sponge
state and row-index cell are each released exactly as many times as
acquired, and the host staging row is fully released on the success
path; on failure paths after its acquisition the host staging row may be
leaked, and releases do not follow reverse acquisition order. -/
theorem claim5_amended (p s : Nat) (env : Env) (r : Res) :
    countEv (LYRA2run p s env).1 (Event.acq r) ≤ 1 ∧
    countEv (LYRA2run p s env).1 (Event.rel r) ≤ countEv (LYRA2run p s env).1 (Event.acq r) ∧
    (r ≠ Res.matrixHost →
      countEv (LYRA2run p s env).1 (Event.rel r) = countEv (LYRA2run p s env).1 (Event.acq r)) ∧
    ((LYRA2run p s env).2 = 0 →
      countEv (LYRA2run p s env).1 (Event.rel r) = countEv (LYRA2run p s env).1 (Event.acq r)) :=
  LYRA2run_counts p s env r

/-- Witness for the amended claim C5 at a concrete successful run:
the device sponge state is balanced, and on success so is the host
staging row. -/
theorem claim5_amended_witness :
    countEv (LYRA2run 1 1 envOK).1 (Event.rel Res.stateDev) =
      countEv (LYRA2run 1 1 envOK).1 (Event.acq Res.stateDev) ∧
    countEv (LYRA2run 1 1 envOK).1 (Event.rel Res.matrixHost) =
      countEv (LYRA2run 1 1 envOK).1 (Event.acq Res.matrixHost) :=
  ⟨(claim5_amended 1 1 envOK Res.stateDev).2.2.1 (by decide),
   (claim5_amended 1 1 envOK Res.matrixHost).2.2.2 (by decide)⟩

/-- Counterexample to claim C6 as stated: with the wandering kernel
failing (Lyra2.cu line 298), the run exits with -1 and releases the
device sponge state without ever zeroizing it - the wipe of line 352 is
only reached on the success path. -/
theorem claim6_counterexample :
    countEv (LYRA2run 1 1 envWanderFail).1 (Event.rel Res.stateDev) = 1 ∧
    countEv (LYRA2run 1 1 envWanderFail).1 (Event.wipe Res.stateDev) = 0 ∧
    (LYRA2run 1 1 envWanderFail).2 = -1 := by decide

/-- Claim C6 as amended: whenever the padded blocks are staged to the
device, the host staging buffer holding the password is zeroized
immediately after the staging copy (Lyra2.cu line 248); and on the
success path the device sponge state is zeroized immediately before its
release (lines 352 and 362).  On failure exits the sponge state is
released without wiping. -/
theorem claim6_amended (p s : Nat) (env : Env) :
    (countEv (LYRA2run p s env).1 Event.stage = 1 →
      ∃ l1 l2, (LYRA2run p s env).1 =
        l1 ++ Event.stage :: Event.wipe Res.matrixHost :: l2) ∧
    ((LYRA2run p s env).2 = 0 →
      ∃ l1 l2, (LYRA2run p s env).1 =
        l1 ++ Event.wipe Res.stateDev :: Event.rel Res.stateDev :: l2) :=
  ⟨LYRA2run_stage_wipe p s env, LYRA2run_success_state_wipe p s env⟩

/-- Witness for the amended claim C6 at a concrete successful run: the
staging event is immediately followed by the password-buffer wipe, and
the state wipe immediately precedes the state release. -/
theorem claim6_amended_witness :
    (∃ l1 l2, (LYRA2run 1 1 envOK).1 =
      l1 ++ Event.stage :: Event.wipe Res.matrixHost :: l2) ∧
    (∃ l1 l2, (LYRA2run 1 1 envOK).1 =
      l1 ++ Event.wipe Res.stateDev :: Event.rel Res.stateDev :: l2) :=
  ⟨(claim6_amended 1 1 envOK).1 (by decide), (claim6_amended 1 1 envOK).2 (by decide)⟩

/-- Counterexample to claim C7 as stated: with the first absorb-block
launch failing (Lyra2.cu line 261), the invocation was made, the run
returns -1, but the host staging row acquired at line 187 is not
released (the cleanup of lines 265-271 omits it), so "releasing exactly
once all resources acquired up to that point" fails. -/
theorem claim7_counterexample :
    countEv (LYRA2run 1 1 envAbsorbFail).1 (Event.eng (EngineOp.absorbE 0)) = 1 ∧
    (LYRA2run 1 1 envAbsorbFail).2 = -1 ∧
    countEv (LYRA2run 1 1 envAbsorbFail).1 (Event.acq Res.matrixHost) = 1 ∧
    countEv (LYRA2run 1 1 envAbsorbFail).1 (Event.rel Res.matrixHost) = 0 := by decide

/-- Claim C7 as amended: a successful status implies that every sponge
engine invocation made during the call succeeded (equivalently, any
engine failure forces status -1), and on every failure exit each
resource other than the host staging row is released exactly as many
times as it was acquired, with no double acquisition; the host staging
row can be leaked. -/
theorem claim7_amended (p s : Nat) (env : Env) :
    ((LYRA2run p s env).2 = 0 →
      env.initStateOk = true ∧ (∀ i, i < nBlocksInput p s → env.absorbOk i = true) ∧
      env.rsr0Ok = true ∧ env.rsr1Ok = true ∧ env.setupOk = true ∧
      env.wanderingOk = true ∧ env.wrapAbsorbOk = true ∧ env.squeezeOk = true) ∧
    ((LYRA2run p s env).2 = -1 → ∀ r : Res, r ≠ Res.matrixHost →
      countEv (LYRA2run p s env).1 (Event.rel r) =
        countEv (LYRA2run p s env).1 (Event.acq r) ∧
      countEv (LYRA2run p s env).1 (Event.acq r) ≤ 1) := by
  constructor
  · intro h
    have hf := LYRA2run_success_flags p s env h
    exact ⟨hf.1, hf.2.1, hf.2.2.1, hf.2.2.2.1, hf.2.2.2.2.1, hf.2.2.2.2.2.1,
      hf.2.2.2.2.2.2.2.1, hf.2.2.2.2.2.2.2.2.1⟩
  · intro _ r hr
    exact ⟨(LYRA2run_counts p s env r).2.2.1 hr, (LYRA2run_counts p s env r).1⟩

/-- Witness for the amended claim C7: a successful run implies the
engine flags hold, and a failing run balances the device sponge state. -/
theorem claim7_amended_witness :
    envOK.initStateOk = true ∧
    countEv (LYRA2run 1 1 envWipeFail).1 (Event.rel Res.stateDev) =
      countEv (LYRA2run 1 1 envWipeFail).1 (Event.acq Res.stateDev) :=
  ⟨((claim7_amended 1 1 envOK).1 (by decide)).1,
   ((claim7_amended 1 1 envWipeFail).2 (by decide) Res.stateDev (by decide)).1⟩

/-- Claim C8: on the success path the trace is exactly: the five
acquisitions, staging and password wipe, initState, the nBlocksInput
absorb-block invocations in index order, the two reducedSqueezeRow calls
for rows 0 and 1, setup, wandering, the single wrap-up absorb of row
rowa, the final squeeze, and the releases - so Setup runs exactly once,
strictly after all absorbs and before any wandering step, and the
wrap-up absorb and squeeze close the run. -/
theorem claim8_phase_order (p s : Nat) (env : Env)
    (h : (LYRA2run p s env).2 = 0) :
    (LYRA2run p s env).1 = fullTrace p s env.rowaVal :=
  LYRA2run_success_trace p s env h

/-- Witness for claim C8 at a concrete successful run with one input
block. -/
theorem claim8_phase_order_witness :
    (LYRA2run 1 1 envOK).2 = 0 ∧ (LYRA2run 1 1 envOK).1 = fullTrace 1 1 0 :=
  ⟨by decide, claim8_phase_order 1 1 envOK (by decide)⟩

/-- Counterexample to claim C9 as stated: with the final sponge-state
wipe failing (Lyra2.cu line 352), the check at line 353 returns -1 even
though the squeeze at line 346 already ran and wrote the output key, so
a -1 status does not imply that no bytes were written. -/
theorem claim9_counterexample :
    (LYRA2run 1 1 envWipeFail).2 = -1 ∧
    countEv (LYRA2run 1 1 envWipeFail).1 (Event.eng EngineOp.squeezeE) = 1 := by decide

/-- Claim C9 as amended: LYRA2 returns only 0 or -1, and the only way to
return -1 after the squeeze has run (and hence after output bytes were
written) is a failure of the squeeze itself or of the final state wipe;
every earlier failure exits before any squeeze invocation. -/
theorem claim9_amended (p s : Nat) (env : Env) :
    ((LYRA2run p s env).2 = 0 ∨ (LYRA2run p s env).2 = -1) ∧
    ((LYRA2run p s env).2 = -1 →
      countEv (LYRA2run p s env).1 (Event.eng EngineOp.squeezeE) = 1 →
      env.squeezeOk = false ∨ env.finalWipeOk = false) :=
  ⟨LYRA2run_status p s env, LYRA2run_squeeze_guard p s env⟩

/-- Witness for the amended claim C9: on the wipe-failure run the -1
status together with the performed squeeze implies a squeeze or wipe
fault. -/
theorem claim9_amended_witness :
    envWipeFail.squeezeOk = false ∨ envWipeFail.finalWipeOk = false :=
  (claim9_amended 1 1 envWipeFail).2 (by decide) (by decide)

/-- Claim C10 is false of the code: the input pwdlen = 4096, saltlen = 0
passes the accepted-length check of Lyra2.cu line 85 (4096 is not
greater than ROW_LEN_BYTES) and the run proceeds, yet the padding
builder reserves 65 blocks = 4160 bytes, so the end-of-padding XOR at
byte offset 4159 (and the 0x80 marker at offset 4120) land beyond the
4096-byte host staging buffer: a heap buffer overflow. -/
theorem claim10_overflow :
    ¬(4096 + 0 > rowLenBytes) ∧
    nBlocksInput 4096 0 * blockLenBytes = 4160 ∧
    rowLenBytes < nBlocksInput 4096 0 * blockLenBytes ∧
    rowLenBytes ≤ nBlocksInput 4096 0 * blockLenBytes - 1 ∧
    rowLenBytes < 4096 + 0 + 6 * sizeofInt ∧
    (LYRA2run 4096 0 envOK).2 = 0 := by decide
